import Mathlib

/-!
Verification development for the Smart_Plate diet-planner backend.

The repository is a small Flask service (src/app.py, src/validation.py and a
stray fragment src/tempCodeRunnerFile.py).  This file gives a shallow
embedding of the parts of the code the claims are about:

* Python values as received from a parsed JSON request body (`PyVal`),
  together with Python truthiness, `int()` / `float()` conversion and
  `str()` formatting as far as the code exercises them;
* `validation.validate_diet_input` (src/validation.py) and the inline
  "mock" `validate_diet_input` of src/app.py (the one the endpoint
  actually uses: the import of validation.py is commented out);
* the diet-type normalisation, the health-conditions string and the
  prompt construction of `generate_diet` (src/app.py lines 97-171);
* the code-fence cleanup of the model reply (src/app.py lines 210-219),
  a model of Python `json.loads`, and the request handler's control flow
  (`generate_diet`), with the external model call represented by an
  oracle argument (`ModelResult`).

Machine integers do not occur (Python ints are unbounded); Python floats
are modelled as rationals, which is faithful for every literal the claims
touch.  Fallible Python code (statements that can raise) is embedded with
`Except`; a raised exception that the handler's `except Exception` block
catches surfaces as the 500 "unexpected server error" response.
-/

namespace SmartPlate

/-- A Python value as obtained from a parsed JSON body: `None`, booleans,
ints, floats (modelled as rationals), strings, lists and dicts
(association lists in insertion order). -/
inductive PyVal where
  | vnone
  | vbool (b : Bool)
  | vint (n : Int)
  | vfloat (q : Rat)
  | vstr (s : String)
  | vlist (xs : List PyVal)
  | vdict (kvs : List (String × PyVal))

/-- The Python exceptions the embedded code can raise. -/
inductive PyExn where
  | keyError (key : String)
  | valueError (msg : String)
  | typeError (msg : String)
  | attributeError (msg : String)
deriving DecidableEq, Repr

/-- Python `str(e)` for the exceptions above, as used by the handler's
`except Exception` block when it builds the 500 message. -/
def PyExn.message : PyExn → String
  | .keyError key => "'" ++ key ++ "'"
  | .valueError msg => msg
  | .typeError msg => msg
  | .attributeError msg => msg

/-- Python truthiness (`bool(v)`): `None`, `False`, `0`, `0.0`, `""`, `[]`
and the empty dict are falsy, everything else is truthy. -/
def pyTruthy : PyVal → Bool
  | .vnone => false
  | .vbool b => b
  | .vint n => n != 0
  | .vfloat q => q != 0
  | .vstr s => s != ""
  | .vlist xs => !xs.isEmpty
  | .vdict kvs => !kvs.isEmpty

/-- Dict lookup, `data[k]` / `data.get(k)`.  Later occurrences of a key
overwrite earlier ones in a Python dict, so the last binding wins. -/
def getVal (kvs : List (String × PyVal)) (k : String) : Option PyVal :=
  (kvs.reverse.find? (fun p => p.1 == k)).map (·.2)

/-- Python's `isinstance(v, int)`: true for ints and for bools (`bool` is a
subclass of `int`). -/
def isInstInt : PyVal → Bool
  | .vint _ => true
  | .vbool _ => true
  | _ => false

/-- Python's `isinstance(v, (int, float))`. -/
def isInstNum : PyVal → Bool
  | .vint _ => true
  | .vbool _ => true
  | .vfloat _ => true
  | _ => false

/-- Python's `isinstance(v, list)`. -/
def isInstList : PyVal → Bool
  | .vlist _ => true
  | _ => false

/-- Python's `isinstance(v, str)`. -/
def isInstStr : PyVal → Bool
  | .vstr _ => true
  | _ => false

/-- The runtime type name of a value, for exception messages. -/
def pyTypeName : PyVal → String
  | .vnone => "NoneType"
  | .vbool _ => "bool"
  | .vint _ => "int"
  | .vfloat _ => "float"
  | .vstr _ => "str"
  | .vlist _ => "list"
  | .vdict _ => "dict"

/-- The characters Python `str.strip()` removes (the ASCII whitespace the
code can meet in a model reply or a form field). -/
def isPySpace (c : Char) : Bool :=
  c == ' ' || c == '\t' || c == '\n' || c == '\r' || c == '\x0b' || c == '\x0c'

/-- Python `s.strip()` on a character list: drop leading and trailing
whitespace. -/
def pyStrip (s : List Char) : List Char :=
  ((s.dropWhile isPySpace).reverse.dropWhile isPySpace).reverse

/-- Python `s.strip()` on a `String`. -/
def pyStripStr (s : String) : String :=
  String.mk (pyStrip s.data)

/-- `pat.isPrefixOf s` for character lists, i.e. Python `s.startswith(pat)`. -/
def startsWith : List Char → List Char → Bool
  | [], _ => true
  | _ :: _, [] => false
  | p :: ps, c :: cs => p == c && startsWith ps cs

/-- Python `s.endswith(pat)`. -/
def endsWith (pat s : List Char) : Bool :=
  startsWith pat.reverse s.reverse

/-- One digit of a decimal literal. -/
def isDigitChar (c : Char) : Bool :=
  '0' ≤ c && c ≤ '9'

/-- Numeric value of a list of decimal digits. -/
def digitsToNat (ds : List Char) : Nat :=
  ds.foldl (fun acc c => acc * 10 + (c.toNat - '0'.toNat)) 0

/-- Python `int(s)` on a string: optional surrounding whitespace, an
optional sign, then one or more decimal digits.  `none` models the
`ValueError` other shapes raise. -/
def parseIntString (s : String) : Option Int :=
  let t := pyStrip s.data
  let (sign, digits) :=
    match t with
    | '-' :: rest => ((-1 : Int), rest)
    | '+' :: rest => ((1 : Int), rest)
    | rest => ((1 : Int), rest)
  if digits ≠ [] ∧ digits.all isDigitChar then
    some (sign * (digitsToNat digits : Int))
  else
    none

/-- Python `float(s)` on a string, for the decimal forms
`[sign] digits [. digits]` and `[sign] . digits` (the forms the service
can meet; exponent, `inf` and `nan` spellings are not modelled).  `none`
models `ValueError`.  The value is built with `mkRat` on the combined
digit string, which keeps it kernel-computable. -/
def parseFloatString (s : String) : Option Rat :=
  let t := pyStrip s.data
  let (sign, body) :=
    match t with
    | '-' :: rest => ((-1 : Int), rest)
    | '+' :: rest => ((1 : Int), rest)
    | rest => ((1 : Int), rest)
  let intPart := body.takeWhile isDigitChar
  let rest := body.dropWhile isDigitChar
  match rest with
  | [] =>
    if intPart ≠ [] then some (mkRat (sign * (digitsToNat intPart : Int)) 1) else none
  | '.' :: fracDigits =>
    if fracDigits.all isDigitChar ∧ (intPart ≠ [] ∨ fracDigits ≠ []) then
      some (mkRat (sign * (digitsToNat (intPart ++ fracDigits) : Int))
        (10 ^ fracDigits.length))
    else none
  | _ => none

/-- Truncation of a rational toward zero, as Python `int(float)` does. -/
def ratTruncToInt (q : Rat) : Int :=
  Int.tdiv q.num (q.den : Int)

/-- Python `int(v)`: ints and bools pass through, floats truncate toward
zero, strings must spell an integer, everything else raises `TypeError`. -/
def pyInt : PyVal → Except PyExn Int
  | .vint n => .ok n
  | .vbool b => .ok (if b then 1 else 0)
  | .vfloat q => .ok (ratTruncToInt q)
  | .vstr s =>
    match parseIntString s with
    | some n => .ok n
    | none =>
      .error (.valueError ("invalid literal for int() with base 10: '" ++ s ++ "'"))
  | v => .error (.typeError ("int() argument must be a string or a number, not '"
      ++ pyTypeName v ++ "'"))

/-- Python `float(v)`. -/
def pyFloat : PyVal → Except PyExn Rat
  | .vint n => .ok (mkRat n 1)
  | .vbool b => .ok (if b then 1 else 0)
  | .vfloat q => .ok q
  | .vstr s =>
    match parseFloatString s with
    | some q => .ok q
    | none => .error (.valueError ("could not convert string to float: '" ++ s ++ "'"))
  | v => .error (.typeError ("float() argument must be a string or a number, not '"
      ++ pyTypeName v ++ "'"))

/-- Python `s.lower()`: character-wise lowercasing (the enumerations the
code compares against are ASCII). -/
def pyLower (s : String) : String :=
  String.mk (s.data.map Char.toLower)

/-- The diet types accepted by both validators, already lowercased. -/
def allowedDietTypes : List String :=
  ["veg", "vegetarian", "non-veg", "non vegetarian"]

/-- src/validation.py `validate_diet_input`: the error list the function
returns, or the exception it raises.  The numeric blocks read
`data['age']` (and height, weight) unconditionally, so an absent key
raises `KeyError` there - only `ValueError` and `TypeError` are caught by
the surrounding `except` clauses. -/
def validation_validate_diet_input (data : List (String × PyVal)) :
    Except PyExn (List String) := do
  let requiredFields :=
    ["age", "sex", "height", "weight", "country", "state", "health_conditions",
      "diet_type"]
  let errs := requiredFields.foldl
    (fun errs f =>
      if (getVal data f).isNone then errs ++ ["Missing required field: " ++ f]
      else errs) []
  let errs ←
    match getVal data "age" with
    | none => throw (.keyError "age")
    | some v =>
      match pyInt v with
      | .ok age =>
        pure (if 10 ≤ age ∧ age ≤ 120 then errs
          else errs ++ ["Age must be between 10 and 120"])
      | .error _ => pure (errs ++ ["Invalid numeric value for age"])
  let errs ←
    match getVal data "height" with
    | none => throw (.keyError "height")
    | some v =>
      match pyFloat v with
      | .ok height =>
        pure (if 100 ≤ height ∧ height ≤ 250 then errs
          else errs ++ ["Height must be between 100 and 250 cm"])
      | .error _ => pure (errs ++ ["Invalid numeric value for height"])
  let errs ←
    match getVal data "weight" with
    | none => throw (.keyError "weight")
    | some v =>
      match pyFloat v with
      | .ok weight =>
        pure (if 30 ≤ weight ∧ weight ≤ 300 then errs
          else errs ++ ["Weight must be between 30 and 300 kg"])
      | .error _ => pure (errs ++ ["Invalid numeric value for weight"])
  let errs :=
    match getVal data "health_conditions" with
    | some v =>
      if !isInstList v then errs ++ ["Health conditions must be provided as a list"]
      else errs
    | none => errs
  let errs :=
    match getVal data "diet_type" with
    | some (.vstr s) =>
      if pyLower s ∈ allowedDietTypes then errs
      else errs ++
        ["Diet type must be one of: 'veg', 'vegetarian', 'non-veg', 'non vegetarian'"]
    | some _ => errs ++
        ["Diet type must be one of: 'veg', 'vegetarian', 'non-veg', 'non vegetarian'"]
    | none => errs
  return errs

/-- Insert-or-replace on the app validator's `errors` dict: assignment
`errors[k] = v` keeps the key's first position when the key exists. -/
def setErr (errs : List (String × String)) (k v : String) :
    List (String × String) :=
  if errs.any (fun p => p.1 == k) then
    errs.map (fun p => if p.1 == k then (k, v) else p)
  else errs ++ [(k, v)]

/-- Python `field.capitalize()` for the required-field messages. -/
def pyCapitalize (s : String) : String :=
  match s.data with
  | [] => ""
  | c :: cs => String.mk (c.toUpper :: cs.map Char.toLower)

/-- The required fields of the inline validator in src/app.py (note:
`health_conditions` is not among them, and `state` comes before
`country`). -/
def appRequiredFields : List String :=
  ["age", "sex", "height", "weight", "state", "country", "diet_type"]

/-- The `age` condition of the inline validator, src/app.py line 32:
`('age' in d and not isinstance(d['age'], int)) or d.get('age', 0) < 1`.
The second disjunct is reached only when age is absent (the default `0`)
or an int, so the comparison never raises. -/
def appAgeBad (data : List (String × PyVal)) : Bool :=
  match getVal data "age" with
  | none => true
  | some v =>
    if !isInstInt v then true
    else match v with
      | .vint n => n < 1
      | .vbool b => (if b then (1 : Int) else 0) < 1
      | _ => false

/-- The `height` / `weight` condition of the inline validator (lines
34-37): `(present and not isinstance(v, (int, float))) or d.get(f, 0) <= 0`. -/
def appNumBad (data : List (String × PyVal)) (f : String) : Bool :=
  match getVal data f with
  | none => true
  | some v =>
    if !isInstNum v then true
    else match v with
      | .vint n => n ≤ 0
      | .vbool b => (if b then (1 : Rat) else 0) ≤ 0
      | .vfloat q => q ≤ 0
      | _ => false

/-- One turn of the required-field loop of the inline validator
(src/app.py lines 27-29): `if field not in user_data or not
user_data[field]: errors[field] = ...`. -/
def appRequiredStep (data : List (String × PyVal)) (errs : List (String × String))
    (f : String) : List (String × String) :=
  match getVal data f with
  | none => setErr errs f (pyCapitalize f ++ " is required.")
  | some v =>
    if pyTruthy v then errs
    else setErr errs f (pyCapitalize f ++ " is required.")

/-- The `errors` dict after the required-field loop of the inline
validator. -/
def appRequiredErrors (data : List (String × PyVal)) : List (String × String) :=
  appRequiredFields.foldl (appRequiredStep data) []

/-- The `errors` dict after the age check of the inline validator
(src/app.py lines 32-33). -/
def appAfterAge (data : List (String × PyVal)) : List (String × String) :=
  if appAgeBad data then
    setErr (appRequiredErrors data) "age" "Age must be a positive number."
  else appRequiredErrors data

/-- The `errors` dict after the height check (lines 34-35). -/
def appAfterHeight (data : List (String × PyVal)) : List (String × String) :=
  if appNumBad data "height" then
    setErr (appAfterAge data) "height" "Height must be a positive number."
  else appAfterAge data

/-- The `errors` dict after the weight check (lines 36-37). -/
def appAfterWeight (data : List (String × PyVal)) : List (String × String) :=
  if appNumBad data "weight" then
    setErr (appAfterHeight data) "weight" "Weight must be a positive number."
  else appAfterHeight data

/-- The `errors` dict after the age, height, weight and health-conditions
checks of the inline validator (src/app.py lines 32-39). -/
def appFieldChecksErrors (data : List (String × PyVal)) : List (String × String) :=
  match getVal data "health_conditions" with
  | some v =>
    if !isInstList v then
      setErr (appAfterWeight data) "health_conditions"
        "Health conditions should be a list of strings."
    else appAfterWeight data
  | none => appAfterWeight data

/-- src/app.py lines 24-43, the inline `validate_diet_input` the endpoint
uses: an `errors` dict, or the exception the function raises.  The
diet-type check (line 40) calls `.lower()` on the raw value, so a present
non-string `diet_type` raises `AttributeError`. -/
def app_validate_diet_input (data : List (String × PyVal)) :
    Except PyExn (List (String × String)) :=
  match getVal data "diet_type" with
  | some (.vstr s) =>
    if pyLower s ∈ allowedDietTypes then .ok (appFieldChecksErrors data)
    else .ok (setErr (appFieldChecksErrors data) "diet_type" "Invalid diet type specified.")
  | some v =>
    .error (.attributeError ("'" ++ pyTypeName v ++ "' object has no attribute 'lower'"))
  | none => .ok (appFieldChecksErrors data)

/-- Display of a scalar inside Python's `str(list)` (`repr` of the
element).  Nested containers are not rendered in full: no claim displays
them, and no profile the handler accepts contains one. -/
def pyScalarRepr : PyVal → String
  | .vstr s => "'" ++ s ++ "'"
  | .vint n => toString n
  | .vbool b => if b then "True" else "False"
  | .vnone => "None"
  | .vfloat q => toString q
  | .vlist _ => "[...]"
  | .vdict _ => "\x7b...\x7d"

/-- Python `str(v)` as the f-string and `str(cond)` use it.  Floats with a
decimal denominator are shown the way `str(float)` shows the literals the
claims use; other floats fall back to the rational's own rendering. -/
def pyStrOf : PyVal → String
  | .vstr s => s
  | .vint n => toString n
  | .vbool b => if b then "True" else "False"
  | .vnone => "None"
  | .vfloat q =>
    if q.den == 1 then toString q.num ++ ".0"
    else match (List.range 33).find? (fun k => (q * (10 : Rat) ^ k).den == 1) with
      | some k =>
        let sign := if q.num < 0 then "-" else ""
        let digits := toString (q.num.natAbs * 10 ^ k / q.den)
        let digits :=
          if digits.length ≤ k then
            String.mk (List.replicate (k + 1 - digits.length) '0') ++ digits
          else digits
        sign ++ digits.extract 0 ⟨digits.length - k⟩ ++ "." ++
          digits.extract ⟨digits.length - k⟩ ⟨digits.length⟩
      | none => toString q
  | .vlist xs => "[" ++ String.intercalate ", " (xs.map pyScalarRepr) ++ "]"
  | .vdict _ => "\x7b...\x7d"

/-- src/app.py lines 97-105: normalisation of the (lowercased) diet type
into the description embedded in the prompt.  Anything outside the two
accepted groups falls through to `"vegetarian"`. -/
def normalize_diet_type (raw : String) : String :=
  let dietTypeInput := pyLower raw
  if dietTypeInput = "veg" ∨ dietTypeInput = "vegetarian" then "vegetarian"
  else if dietTypeInput = "non-veg" ∨ dietTypeInput = "non vegetarian" then
    "non-vegetarian"
  else "vegetarian"

/-- src/app.py line 97, `user_data.get('diet_type', 'veg').lower()` fed to
the normalisation: absent defaults to `"veg"`, and a present non-string
raises `AttributeError` at `.lower()`. -/
def diet_type_description (data : List (String × PyVal)) : Except PyExn String :=
  match getVal data "diet_type" with
  | none => .ok (normalize_diet_type "veg")
  | some (.vstr s) => .ok (normalize_diet_type s)
  | some v =>
    .error (.attributeError ("'" ++ pyTypeName v ++ "' object has no attribute 'lower'"))

/-- src/app.py lines 107-118: the health-conditions string of the prompt.
A falsy (absent, empty or `None`) field gives the literal `"None"`; a
truthy list is stripped element-wise, empty entries are dropped, and the
rest joined with `", "`; if everything is dropped, or the truthy value is
not a list (only a warning is printed), the string stays `"None"`. -/
def health_conditions_str (data : List (String × PyVal)) : String :=
  match getVal data "health_conditions" with
  | some v =>
    if pyTruthy v then
      match v with
      | .vlist xs =>
        let conditions :=
          (xs.map (fun cond => pyStripStr (pyStrOf cond))).filter (fun s => s ≠ "")
        if conditions ≠ [] then String.intercalate ", " conditions else "None"
      | _ => "None"
    else "None"
  | none => "None"

/-- src/tempCodeRunnerFile.py line 7: the same clause in the stray
fragment, which joins the raw entries with no stripping or filtering.
The join is only reached with a truthy `health_conditions`; Python
`', '.join` would raise on non-string entries, so the fragment's clause
is modelled on string lists only. -/
def tempfile_health_conditions_str (data : List (String × PyVal)) : String :=
  match getVal data "health_conditions" with
  | some (.vlist xs) =>
    if pyTruthy (.vlist xs) then
      String.intercalate ", " (xs.map (fun cond =>
        match cond with
        | .vstr s => s
        | v => pyStrOf v))
    else "None"
  | some v => if pyTruthy v then "" else "None"
  | none => "None"

/-- An f-string display `{user_data.get(f, 'N/A')}`. -/
def promptField (data : List (String × PyVal)) (f : String) : String :=
  match getVal data f with
  | some v => pyStrOf v
  | none => "N/A"

/-- src/app.py lines 122-127: the profile header of the prompt, up to and
excluding the health-conditions line. -/
def prompt_header (data : List (String × PyVal)) : String :=
  "Act as a professional nutritionist. Create a personalized 7-day diet plan for:\n"
  ++ "- Age: " ++ promptField data "age" ++ "\n"
  ++ "- Gender: " ++ promptField data "sex" ++ "\n"
  ++ "- Height: " ++ promptField data "height" ++ " cm\n"
  ++ "- Weight: " ++ promptField data "weight" ++ " kg\n"
  ++ "- Location: " ++ promptField data "state" ++ ", " ++ promptField data "country" ++ "\n"

/-- src/app.py line 128: the health-conditions line of the prompt. -/
def health_conditions_clause (data : List (String × PyVal)) : String :=
  "- Health Conditions: " ++ health_conditions_str data ++ "\n"

/-- src/app.py lines 141-171: the literal JSON shape appended to the
prompt (the f-string's doubled braces render as plain braces). -/
def prompt_json_template : String :=
  "\x7b\n"
  ++ "    \"weekly_plan\": \x7b\n"
  ++ "        \"monday\": \x7b\n"
  ++ "            \"breakfast\": \x7b\"meal\": \"Oatmeal with Berries and Nuts\", \"calories\": 350, \"protein\": \"10g\", \"carbs\": \"50g\", \"fats\": \"12g\", \"glucose_spike_prediction\": \"Low\"\x7d,\n"
  ++ "            \"lunch\": \x7b\"meal\": \"Lentil Soup with Whole Wheat Bread\", \"calories\": 450, \"protein\": \"20g\", \"carbs\": \"60g\", \"fats\": \"15g\", \"glucose_spike_prediction\": \"Moderate\"\x7d,\n"
  ++ "            \"snacks\": \x7b\"meal\": \"Apple slices with Peanut Butter\", \"calories\": 200, \"protein\": \"5g\", \"carbs\": \"30g\", \"fats\": \"8g\", \"glucose_spike_prediction\": \"Low\"\x7d,\n"
  ++ "            \"dinner\": \x7b\"meal\": \"Baked Salmon with Roasted Vegetables\", \"calories\": 500, \"protein\": \"35g\", \"carbs\": \"40g\", \"fats\": \"20g\", \"glucose_spike_prediction\": \"Low\"\x7d\n"
  ++ "        \x7d,\n"
  ++ "        \"tuesday\": \x7b\n"
  ++ "            \"breakfast\": \x7b\"meal\": \"Scrambled Eggs with Spinach and Toast\", \"calories\": 400, \"protein\": \"25g\", \"carbs\": \"30g\", \"fats\": \"20g\", \"glucose_spike_prediction\": \"Low\"\x7d,\n"
  ++ "            \"lunch\": \x7b \"meal\": \"...\", \"calories\": 0, ... , \"glucose_spike_prediction\": \"...\" \x7d,\n"
  ++ "            \"snacks\": \x7b \"meal\": \"...\", \"calories\": 0, ... , \"glucose_spike_prediction\": \"...\" \x7d,\n"
  ++ "            \"dinner\": \x7b \"meal\": \"...\", \"calories\": 0, ... , \"glucose_spike_prediction\": \"...\" \x7d\n"
  ++ "        \x7d,\n"
  ++ "        \"wednesday\": \x7b ... similar structure ... \x7d,\n"
  ++ "        \"thursday\": \x7b ... similar structure ... \x7d,\n"
  ++ "        \"friday\": \x7b ... similar structure ... \x7d,\n"
  ++ "        \"saturday\": \x7b ... similar structure ... \x7d,\n"
  ++ "        \"sunday\": \x7b ... similar structure ... \x7d\n"
  ++ "    \x7d,\n"
  ++ "    \"nutritional_goals\": \x7b\n"
  ++ "        \"daily_calories\": 2000,\n"
  ++ "        \"protein_grams\": 100,\n"
  ++ "        \"carb_grams\": 250,\n"
  ++ "        \"fat_grams\": 60\n"
  ++ "    \x7d,\n"
  ++ "    \"recommended_foods\": [\"List\", \"of\", \"recommended\", \"foods\"],\n"
  ++ "    \"foods_to_avoid\": [\"List\", \"of\", \"foods\", \"to\", \"avoid\"],\n"
  ++ "    \"cooking_tips\": [\"Tip 1\", \"Tip 2\", \"Tip 3\"],\n"
  ++ "    \"cultural_considerations\": \"Specific notes based on location if applicable, otherwise brief general advice or empty string.\"\n"
  ++ "\x7d"

/-- src/app.py lines 129-171: everything of the prompt after the
health-conditions line (the diet-preference line, the seven numbered
instructions - two of which mention the normalised diet type - and the
JSON template). -/
def prompt_after_conditions (dietType : String) : String :=
  "- Diet Preference: " ++ dietType ++ "\n"
  ++ "\nWhen creating the diet plan:\n"
  ++ "1. Use **consistent measurement units** for all volume measurements (e.g., use \"cups\" or \"ml\" consistently, specify which).\n"
  ++ "2. For snack options, provide a **variety of choices** and avoid repeating the exact same snack daily (e.g., offer fruits, yogurt, nuts, veggie sticks).\n"
  ++ "3. If any health conditions are provided (not \"None\"), include **specific advice and tailored recommendations** that address those conditions within the plan or in a dedicated section.\n"
  ++ "4. Ensure that the meal options adhere to the specified diet preference (i.e., all meals should be " ++ dietType ++ ").\n"
  ++ "5. Do not repeat the exact same meal combination (e.g., Breakfast A, Lunch B, Dinner C) on different days. Variety is key. Avoid responses like \"repeat Monday's Breakfast\". Define each meal explicitly.\n"
  ++ "6. If the user selected non-vegetarian, include a mix of non-vegetarian and healthy vegetarian meals appropriate for the specified location. Don't make every meal non-veg.\n"
  ++ "7. For each meal (breakfast, lunch, snacks, dinner), include an estimated **glucose_spike_prediction** level based on the meal's composition and typical glycemic response. Use simple terms: \"Low\", \"Moderate\", or \"High\".\n"
  ++ "\nProvide the response ONLY in perfect JSON format without any surrounding text, comments, or markdown formatting (like ```json ... ```). Structure it exactly like this example:\n"
  ++ prompt_json_template

/-- The prompt of src/app.py lines 122-171, given the already-normalised
diet-type description: header, health-conditions line, then the rest. -/
def build_prompt (data : List (String × PyVal)) (dietType : String) : String :=
  prompt_header data ++ health_conditions_clause data
    ++ prompt_after_conditions dietType

/-- src/app.py lines 213-214: `if cleaned_response.startswith('```json'):
cleaned_response = cleaned_response[len('```json'):]`. -/
def dropJsonFence (s : List Char) : List Char :=
  if startsWith "```json".data s then s.drop 7 else s

/-- src/app.py lines 215-216: the second `if`, which re-tests the already
shortened text for a bare "```". -/
def dropSecondFence (s : List Char) : List Char :=
  if startsWith "```".data s then s.drop 3 else s

/-- src/app.py lines 217-218: drop a trailing "```" if present
(`cleaned_response[:-3]`). -/
def dropTrailingFence (s : List Char) : List Char :=
  if endsWith "```".data s then s.take (s.length - 3) else s

/-- src/app.py lines 210-219: cleanup of the model reply.  Strip
whitespace; drop a leading "```json" if present; after that, drop a
leading "```" if (still) present; drop a trailing "```" if present; strip
whitespace again.  Because the second `if` re-tests the shortened text, a
reply beginning "```json```" loses both leading markers. -/
def clean_model_response (s : List Char) : List Char :=
  pyStrip (dropTrailingFence (dropSecondFence (dropJsonFence (pyStrip s))))

/-- Modelled from the spec's words for comparison (spec section 4.3 and
the claim): strip whitespace, then exactly one optional leading fence
marker - "```json" when the language tag is present, else "```" - then
one optional trailing "```", then whitespace.  This is the reference the
code's `clean_model_response` is measured against. -/
def dropOneLeadingFence (s : List Char) : List Char :=
  if startsWith "```json".data s then s.drop 7
  else if startsWith "```".data s then s.drop 3
  else s

/-- The spec-described cleanup: one optional leading marker, one optional
trailing marker, surrounding whitespace. -/
def strip_one_fence_pair (s : List Char) : List Char :=
  pyStrip (dropTrailingFence (dropOneLeadingFence (pyStrip s)))

/-- A parsed JSON document, the result of Python `json.loads`. -/
inductive Json where
  | null
  | bool (b : Bool)
  | num (q : Rat)
  | str (s : String)
  | arr (elems : List Json)
  | obj (members : List (String × Json))

/-- Whitespace `json.loads` skips between tokens. -/
def jsonSkipWs (s : List Char) : List Char :=
  s.dropWhile (fun c => c == ' ' || c == '\t' || c == '\n' || c == '\r')

/-- The opening brace character (written by code point to keep brace
characters out of the literals of this file). -/
def lbrace : Char := Char.ofNat 123

/-- The closing brace character. -/
def rbrace : Char := Char.ofNat 125

/-- Value of one hexadecimal digit. -/
def hexVal (c : Char) : Option Nat :=
  if '0' ≤ c ∧ c ≤ '9' then some (c.toNat - '0'.toNat)
  else if 'a' ≤ c ∧ c ≤ 'f' then some (c.toNat - 'a'.toNat + 10)
  else if 'A' ≤ c ∧ c ≤ 'F' then some (c.toNat - 'A'.toNat + 10)
  else none

/-- The body of a JSON string after the opening quote: the decoded
characters and the input after the closing quote.  Handles the escapes of
the JSON grammar; surrogate pairing of two \u escapes is not modelled.
The fuel argument is at least the input length at every call site. -/
def parseStringChars : Nat → List Char → Except String (List Char × List Char)
  | 0, _ => .error "Unterminated string starting at"
  | _ + 1, [] => .error "Unterminated string starting at"
  | fuel + 1, c :: rest =>
    if c == '"' then .ok ([], rest)
    else if c == '\\' then
      match rest with
      | [] => .error "Unterminated string starting at"
      | e :: rest2 =>
        if e == 'u' then
          match rest2 with
          | h1 :: h2 :: h3 :: h4 :: rest3 =>
            match hexVal h1, hexVal h2, hexVal h3, hexVal h4 with
            | some a, some b, some c2, some d =>
              (parseStringChars fuel rest3).map
                (fun p => (Char.ofNat (((a * 16 + b) * 16 + c2) * 16 + d) :: p.1, p.2))
            | _, _, _, _ => .error "Invalid \\uXXXX escape"
          | _ => .error "Invalid \\uXXXX escape"
        else
          match (if e == '"' then some '"' else if e == '\\' then some '\\'
            else if e == '/' then some '/' else if e == 'b' then some '\x08'
            else if e == 'f' then some '\x0c' else if e == 'n' then some '\n'
            else if e == 'r' then some '\r' else if e == 't' then some '\t'
            else none) with
          | some d => (parseStringChars fuel rest2).map (fun p => (d :: p.1, p.2))
          | none => .error "Invalid \\escape"
    else (parseStringChars fuel rest).map (fun p => (c :: p.1, p.2))

/-- A JSON number starting at the head of the input (an optional minus
sign was already sighted by the caller).  The value is assembled with
`mkRat` over the concatenated digits and a power-of-ten denominator, so
it stays kernel-computable.  Leading-zero strictness is not modelled; no
claim depends on it. -/
def parseJsonNumber (s : List Char) : Except String (Rat × List Char) :=
  let (sign, t) :=
    match s with
    | '-' :: r => ((-1 : Int), r)
    | r => ((1 : Int), r)
  let intDigits := t.takeWhile isDigitChar
  let t1 := t.dropWhile isDigitChar
  if intDigits = [] then .error "Expecting value"
  else
    let (allDigits, fracLen, t2) :=
      match t1 with
      | '.' :: r =>
        let fracDigits := r.takeWhile isDigitChar
        (intDigits ++ fracDigits, fracDigits.length, r.dropWhile isDigitChar)
      | _ => (intDigits, 0, t1)
    let (expVal, t3) :=
      match t2 with
      | 'e' :: r => parseJsonExponentDigits r
      | 'E' :: r => parseJsonExponentDigits r
      | _ => (some (0 : Int), t2)
    match expVal with
    | none => .error "Expecting value"
    | some e =>
      let shift : Int := e - (fracLen : Int)
      let mantissa : Int := sign * (digitsToNat allDigits : Int)
      if 0 ≤ shift then .ok (mkRat (mantissa * 10 ^ shift.toNat) 1, t3)
      else .ok (mkRat mantissa (10 ^ (-shift).toNat), t3)
where
  /-- The digits after `e`/`E`: the exponent value and the rest. -/
  parseJsonExponentDigits (s : List Char) : Option Int × List Char :=
    let (esign, t) :=
      match s with
      | '-' :: r => ((-1 : Int), r)
      | '+' :: r => ((1 : Int), r)
      | r => ((1 : Int), r)
    let expDigits := t.takeWhile isDigitChar
    if expDigits = [] then (none, s)
    else (some (esign * (digitsToNat expDigits : Int)), t.dropWhile isDigitChar)

/-- What one step of the JSON parser is asked to read: a value, the item
list of an array after `[` or after a `,`, or the member list of an
object after the opening brace or after a `,`.  `allowEnd` is true right
after the opener, where the closer may end an empty container. -/
inductive JMode where
  | value
  | arrayRest (allowEnd : Bool)
  | objectRest (allowEnd : Bool)

/-- The result of one step of the JSON parser, matching the mode. -/
inductive JOut where
  | val (j : Json)
  | arrItems (elems : List Json)
  | objItems (members : List (String × Json))

/-- The recursive JSON parser, written as a single function structurally
recursive on its fuel so that it computes by kernel reduction.  Error
strings are the textual part of the `json.JSONDecodeError` messages
CPython raises (without the line/column suffix).  The `.ok` fallthrough
arms for a mismatched `JOut` constructor are unreachable: a recursive
call in mode `m` only returns the constructor of `m`. -/
def parseJson : Nat → JMode → List Char → Except String (JOut × List Char)
  | 0, _, _ => .error "Expecting value"
  | fuel + 1, .value, s =>
    let t := jsonSkipWs s
    match t with
    | [] => .error "Expecting value"
    | c :: rest =>
      if startsWith "null".data t then .ok (.val .null, t.drop 4)
      else if startsWith "true".data t then .ok (.val (.bool true), t.drop 4)
      else if startsWith "false".data t then .ok (.val (.bool false), t.drop 5)
      else if c == '"' then
        (parseStringChars (rest.length + 1) rest).map
          (fun p => (.val (.str (String.mk p.1)), p.2))
      else if c == '[' then
        match parseJson fuel (.arrayRest true) rest with
        | .ok (.arrItems xs, r) => .ok (.val (.arr xs), r)
        | .ok _ => .error "Expecting value"
        | .error e => .error e
      else if c == lbrace then
        match parseJson fuel (.objectRest true) rest with
        | .ok (.objItems ms, r) => .ok (.val (.obj ms), r)
        | .ok _ => .error "Expecting value"
        | .error e => .error e
      else if c == '-' || isDigitChar c then
        (parseJsonNumber t).map (fun p => (.val (.num p.1), p.2))
      else .error "Expecting value"
  | fuel + 1, .arrayRest allowEnd, s =>
    let t := jsonSkipWs s
    if allowEnd && startsWith "]".data t then .ok (.arrItems [], t.drop 1)
    else
      match parseJson fuel .value t with
      | .error e => .error e
      | .ok (.val v, r) =>
        match jsonSkipWs r with
        | ',' :: r2 =>
          match parseJson fuel (.arrayRest false) r2 with
          | .ok (.arrItems xs, rr) => .ok (.arrItems (v :: xs), rr)
          | .ok _ => .error "Expecting value"
          | .error e => .error e
        | ']' :: r2 => .ok (.arrItems [v], r2)
        | _ => .error "Expecting ',' delimiter"
      | .ok _ => .error "Expecting value"
  | fuel + 1, .objectRest allowEnd, s =>
    let t := jsonSkipWs s
    match t with
    | [] => .error "Expecting property name enclosed in double quotes"
    | c :: r =>
      if c == rbrace && allowEnd then .ok (.objItems [], r)
      else if c == '"' then
        match parseStringChars (r.length + 1) r with
        | .error e => .error e
        | .ok (keyChars, r1) =>
          match jsonSkipWs r1 with
          | ':' :: r2 =>
            match parseJson fuel .value r2 with
            | .error e => .error e
            | .ok (.val v, r3) =>
              match jsonSkipWs r3 with
              | ',' :: r4 =>
                match parseJson fuel (.objectRest false) r4 with
                | .ok (.objItems ms, rr) =>
                  .ok (.objItems ((String.mk keyChars, v) :: ms), rr)
                | .ok _ => .error "Expecting value"
                | .error e => .error e
              | c2 :: r4 =>
                if c2 == rbrace then .ok (.objItems [(String.mk keyChars, v)], r4)
                else .error "Expecting ',' delimiter"
              | [] => .error "Expecting ',' delimiter"
            | .ok _ => .error "Expecting value"
          | _ => .error "Expecting ':' delimiter"
      else .error "Expecting property name enclosed in double quotes"

/-- Python `json.loads` on a character list: one JSON value, and nothing
but whitespace after it.  Nesting consumes at least one character per
level, so `length + 1` fuel never runs out. -/
def json_loads (s : List Char) : Except String Json :=
  match parseJson (s.length + 1) .value s with
  | .error e => .error e
  | .ok (.val v, rest) =>
    if jsonSkipWs rest = [] then .ok v else .error "Extra data"
  | .ok _ => .error "Expecting value"

/-- The JSON body shapes `generate_diet` responds with: the success body
with the parsed plan, an error body with a `message`, or the 400 error
body carrying the validator's `errors` dict.  Every body also carries the
matching `status` field ("success" for the first, "error" otherwise). -/
inductive RespBody where
  | successPlan (dietPlan : Json)
  | errorMessage (message : String)
  | errorFields (errors : List (String × String))

/-- An HTTP response of the endpoint: status code and JSON body. -/
structure HttpResponse where
  status : Nat
  body : RespBody

/-- The outcome of the external `model.generate_content(prompt)` call, an
oracle input to the handler: the bounded wait expired, the response
object was falsy or lacked `.text`, or a reply text came back. -/
inductive ModelResult where
  | timedOut
  | invalid
  | text (t : List Char)

/-- src/app.py lines 210-251: what the handler does with a reply text -
cleanup, `json.loads`, then either the 200 success body or the 500 parse
failure carrying the parser's diagnostic.  The glucose-spike sanity check
after a successful parse only prints warnings and never alters the
document or the response. -/
def process_model_text (t : List Char) : HttpResponse :=
  let cleaned := clean_model_response t
  match json_loads cleaned with
  | .ok dietPlan => ⟨200, .successPlan dietPlan⟩
  | .error e =>
    ⟨500, .errorMessage ("Failed to parse the diet plan structure received from the AI. Please try again. Error: " ++ e)⟩

/-- src/app.py lines 84-266, the POST /api/generate-diet handler.
`userData` is the value `request.json` produced (`.vnone` for a null or
absent body); `modelReply` is the outcome of the external model call.
Exceptions raised inside the `try` block are caught by the handler's
`except Exception` clause and become the 500 "unexpected server error"
response, so the handler is a total function; a truthy non-dict body
raises inside the inline validator (`'age' not in 5` or `user_data.get`
on a list) and lands in that same clause. -/
def generate_diet (userData : PyVal) (modelReply : ModelResult) : HttpResponse :=
  if !pyTruthy userData then
    ⟨400, .errorMessage "Invalid request: No JSON data received."⟩
  else
    match userData with
    | .vdict data =>
      match app_validate_diet_input data with
      | .error e =>
        ⟨500, .errorMessage ("An unexpected server error occurred: " ++ e.message)⟩
      | .ok errors =>
        if !errors.isEmpty then ⟨400, .errorFields errors⟩
        else
          match diet_type_description data with
          | .error e =>
            ⟨500, .errorMessage ("An unexpected server error occurred: " ++ e.message)⟩
          | .ok dietType =>
            let _prompt := build_prompt data dietType
            match modelReply with
            | .timedOut =>
              ⟨504, .errorMessage "Model response timed out. The request took too long. Please try again, perhaps with simpler requirements."⟩
            | .invalid =>
              ⟨502, .errorMessage "Received an invalid or empty response from the AI model."⟩
            | .text t => process_model_text t
    | _ =>
      ⟨500, .errorMessage "An unexpected server error occurred: the validator raises on a non-dict body"⟩

/-! ### Profiles used by the claim theorems -/

/-- The example profile of spec section 8; every check of both validators
passes on it. -/
def validProfile : List (String × PyVal) :=
  [("age", .vint 30), ("sex", .vstr "F"), ("height", .vint 165),
   ("weight", .vint 60), ("country", .vstr "US"), ("state", .vstr "CA"),
   ("health_conditions", .vlist []), ("diet_type", .vstr "veg")]

/-- A record for validation.py with every field valid except a chosen
age value (field order as validation.py expects it). -/
def vRecordWithAge (age : PyVal) : List (String × PyVal) :=
  [("age", age), ("sex", .vstr "M"), ("height", .vint 170),
   ("weight", .vint 70), ("country", .vstr "India"), ("state", .vstr "Delhi"),
   ("health_conditions", .vlist []), ("diet_type", .vstr "veg")]

/-- A record for the inline app.py validator with every field valid
except a chosen age value. -/
def appRecordWithAge (age : PyVal) : List (String × PyVal) :=
  [("age", age), ("sex", .vstr "M"), ("height", .vint 170),
   ("weight", .vint 70), ("state", .vstr "Delhi"), ("country", .vstr "India"),
   ("diet_type", .vstr "veg")]

/-- A record with every field present and valid except that the age key
is absent entirely. -/
def vRecordNoAge : List (String × PyVal) :=
  [("sex", .vstr "M"), ("height", .vint 170), ("weight", .vint 70),
   ("country", .vstr "India"), ("state", .vstr "Delhi"),
   ("health_conditions", .vlist []), ("diet_type", .vstr "veg")]

/-! ### Helper lemmas about the app validator's errors dict -/

/-- `errors[k] = v` never empties the dict. -/
theorem setErr_ne_nil (e : List (String × String)) (k v : String) :
    setErr e k v ≠ [] := by
  unfold setErr
  split
  · rename_i h
    rw [List.any_eq_true] at h
    rcases h with ⟨p, hp, _⟩
    intro hmap
    rw [List.map_eq_nil_iff] at hmap
    subst hmap
    cases hp
  · simp

/-- After `errors[k] = v` the pair `(k, v)` is in the dict. -/
theorem setErr_mem_self (e : List (String × String)) (k v : String) :
    (k, v) ∈ setErr e k v := by
  unfold setErr
  split
  · rename_i h
    rw [List.any_eq_true] at h
    rcases h with ⟨p, hp, hk⟩
    exact List.mem_map.mpr ⟨p, hp, by simp [hk]⟩
  · exact List.mem_append_right _ (by simp)

/-- A pair keyed differently survives `errors[k2] = v`. -/
theorem mem_setErr_of_ne (e : List (String × String)) (k m k2 v : String)
    (hk : k ≠ k2) (hm : (k, m) ∈ e) : (k, m) ∈ setErr e k2 v := by
  unfold setErr
  split
  · refine List.mem_map.mpr ⟨(k, m), hm, ?_⟩
    simp [hk]
  · exact List.mem_append_left _ hm

/-- Some entry for `k` survives `errors[k2] = v`, whatever `k2`. -/
theorem exists_mem_setErr (e : List (String × String)) (k k2 v : String)
    (h : ∃ m, (k, m) ∈ e) : ∃ m, (k, m) ∈ setErr e k2 v := by
  by_cases hkk : k = k2
  · subst hkk
    exact ⟨v, setErr_mem_self e k v⟩
  · rcases h with ⟨m, hm⟩
    exact ⟨m, mem_setErr_of_ne e k m k2 v hkk hm⟩

/-- Some entry for `k` survives an optional `setErr` stage. -/
theorem exists_mem_ite_setErr (c : Prop) [Decidable c]
    (e : List (String × String)) (k k2 v : String) (h : ∃ m, (k, m) ∈ e) :
    ∃ m, (k, m) ∈ (if c then setErr e k2 v else e) := by
  split
  · exact exists_mem_setErr e k k2 v h
  · exact h

/-- A pair keyed differently survives an optional `setErr` stage. -/
theorem mem_ite_setErr_of_ne (c : Prop) [Decidable c]
    (e : List (String × String)) (k m k2 v : String) (hk : k ≠ k2)
    (hm : (k, m) ∈ e) : (k, m) ∈ (if c then setErr e k2 v else e) := by
  split
  · exact mem_setErr_of_ne e k m k2 v hk hm
  · exact hm

/-- An optional `setErr` stage that came out empty started empty. -/
theorem ite_setErr_eq_nil (c : Prop) [Decidable c]
    (e : List (String × String)) (k v : String)
    (h : (if c then setErr e k v else e) = []) : e = [] := by
  split at h
  · exact absurd h (setErr_ne_nil e k v)
  · exact h

/-- Entries survive the whole required-field loop. -/
theorem exists_mem_foldl_requiredStep (data : List (String × PyVal))
    (fs : List String) (init : List (String × String)) (k : String)
    (h : ∃ m, (k, m) ∈ init) :
    ∃ m, (k, m) ∈ fs.foldl (appRequiredStep data) init := by
  induction fs generalizing init with
  | nil => simpa using h
  | cons g gs ih =>
    rw [List.foldl_cons]
    apply ih
    cases hget : getVal data g with
    | none =>
      simp only [appRequiredStep, hget]
      exact exists_mem_setErr init k g _ h
    | some v =>
      simp only [appRequiredStep, hget]
      split
      · exact h
      · exact exists_mem_setErr init k g _ h

/-- A required field that is missing from the profile gets an entry in
the dict the required-field loop builds. -/
theorem exists_mem_foldl_requiredStep_of_missing (data : List (String × PyVal))
    (fs : List String) (init : List (String × String)) (f : String)
    (hf : f ∈ fs) (hmiss : getVal data f = none) :
    ∃ m, (f, m) ∈ fs.foldl (appRequiredStep data) init := by
  induction fs generalizing init with
  | nil => cases hf
  | cons g gs ih =>
    rw [List.foldl_cons]
    rcases List.mem_cons.mp hf with rfl | hf2
    · apply exists_mem_foldl_requiredStep
      simp only [appRequiredStep, hmiss]
      exact ⟨_, setErr_mem_self init f _⟩
    · exact ih _ hf2

/-- A required field that is missing from the profile gets an entry in
`appRequiredErrors`. -/
theorem appRequiredErrors_key_of_missing (data : List (String × PyVal))
    (f : String) (hf : f ∈ appRequiredFields) (hmiss : getVal data f = none) :
    ∃ m, (f, m) ∈ appRequiredErrors data :=
  exists_mem_foldl_requiredStep_of_missing data appRequiredFields [] f hf hmiss

/-- Entries of the required-field dict survive the age, height, weight
and health-conditions checks. -/
theorem exists_mem_appFieldChecksErrors (data : List (String × PyVal))
    (k : String) (h : ∃ m, (k, m) ∈ appRequiredErrors data) :
    ∃ m, (k, m) ∈ appFieldChecksErrors data := by
  have h1 : ∃ m, (k, m) ∈ appAfterAge data :=
    exists_mem_ite_setErr _ _ k _ _ h
  have h2 : ∃ m, (k, m) ∈ appAfterHeight data :=
    exists_mem_ite_setErr _ _ k _ _ h1
  have h3 : ∃ m, (k, m) ∈ appAfterWeight data :=
    exists_mem_ite_setErr _ _ k _ _ h2
  cases hget : getVal data "health_conditions" with
  | none =>
    simp only [appFieldChecksErrors, hget]
    exact h3
  | some v =>
    simp only [appFieldChecksErrors, hget]
    split
    · exact exists_mem_setErr _ k _ _ h3
    · exact h3

/-- If the required-field loop produced no error, the loop's fields are
all present and truthy. -/
theorem foldl_requiredStep_eq_nil (data : List (String × PyVal))
    (fs : List String) (init : List (String × String))
    (h : fs.foldl (appRequiredStep data) init = []) :
    init = [] ∧ ∀ f ∈ fs, ∃ v, getVal data f = some v ∧ pyTruthy v = true := by
  induction fs generalizing init with
  | nil => exact ⟨h, by simp⟩
  | cons g gs ih =>
    rw [List.foldl_cons] at h
    have h2 := ih _ h
    have hstep := h2.1
    unfold appRequiredStep at hstep
    cases hget : getVal data g with
    | none =>
      simp only [hget] at hstep
      exact absurd hstep (setErr_ne_nil init g _)
    | some v =>
      simp only [hget] at hstep
      by_cases ht : pyTruthy v = true
      · rw [if_pos ht] at hstep
        refine ⟨hstep, ?_⟩
        intro f hf
        rcases List.mem_cons.mp hf with rfl | hf2
        · exact ⟨v, hget, ht⟩
        · exact h2.2 f hf2
      · rw [if_neg ht] at hstep
        exact absurd hstep (setErr_ne_nil init g _)

/-- If the age, height, weight and health-conditions checks produced an
empty dict, the required-field loop did too. -/
theorem appFieldChecksErrors_eq_nil (data : List (String × PyVal))
    (h : appFieldChecksErrors data = []) : appRequiredErrors data = [] := by
  have h3 : appAfterWeight data = [] := by
    cases hget : getVal data "health_conditions" with
    | none => simp only [appFieldChecksErrors, hget] at h; exact h
    | some v =>
      simp only [appFieldChecksErrors, hget] at h
      split at h
      · exact absurd h (setErr_ne_nil _ _ _)
      · exact h
  have h2 : appAfterHeight data = [] := ite_setErr_eq_nil _ _ _ _ h3
  have h1 : appAfterAge data = [] := ite_setErr_eq_nil _ _ _ _ h2
  exact ite_setErr_eq_nil _ _ _ _ h1

/-- The handler's happy-path branch for a non-empty validation report:
any truthy dict body whose validation returns a non-empty errors dict
draws the 400 response carrying exactly that dict, whatever the model
would have replied. -/
theorem generate_diet_400 (data : List (String × PyVal))
    (errs : List (String × String)) (reply : ModelResult)
    (hv : app_validate_diet_input data = .ok errs)
    (hne : data ≠ []) (herrs : errs ≠ []) :
    generate_diet (.vdict data) reply = ⟨400, .errorFields errs⟩ := by
  have hp : pyTruthy (.vdict data) = true := by
    cases data with
    | nil => exact absurd rfl hne
    | cons a l => rfl
  have he : errs.isEmpty = false := by
    cases errs with
    | nil => exact absurd rfl herrs
    | cons a l => rfl
  unfold generate_diet
  simp only [hp, Bool.not_true, Bool.false_eq_true, if_false, hv, he,
    Bool.not_false, if_true]

/-! ### Helper lemmas about stripping and fences -/

/-- A list whose head the predicate rejects is untouched by `dropWhile`. -/
theorem dropWhile_eq_self_of_head (p : Char → Bool) (xs : List Char)
    (h : ∀ c, xs.head? = some c → p c = false) : xs.dropWhile p = xs := by
  cases xs with
  | nil => rfl
  | cons a l => simp [List.dropWhile_cons, h a rfl]

/-- `strip` leaves a list alone when neither end is whitespace. -/
theorem pyStrip_eq_self (xs : List Char)
    (hhead : ∀ c, xs.head? = some c → isPySpace c = false)
    (hlast : ∀ c, xs.getLast? = some c → isPySpace c = false) :
    pyStrip xs = xs := by
  unfold pyStrip
  rw [dropWhile_eq_self_of_head _ _ hhead]
  rw [dropWhile_eq_self_of_head _ _
    (fun c hc => hlast c (by rwa [List.head?_reverse] at hc))]
  exact List.reverse_reverse xs

/-- `startswith` fails when already the first characters differ. -/
theorem startsWith_false_of_head (p : Char) (ps : List Char) (xs : List Char)
    (h : ∀ c, xs.head? = some c → (p == c) = false) :
    startsWith (p :: ps) xs = false := by
  cases xs with
  | nil => rfl
  | cons a l => simp [startsWith, h a rfl]

/-- The head of a cons through `head?`. -/
theorem head_eq_of_head? {c d : Char} {l : List Char}
    (hc : (d :: l).head? = some c) : c = d :=
  (Option.some.inj hc).symm

/-- The last element of `l ++ [d]` through `getLast?`. -/
theorem last_eq_of_concat {c d : Char} {l : List Char}
    (hc : (l ++ [d]).getLast? = some c) : c = d := by
  rw [List.getLast?_concat] at hc
  exact (Option.some.inj hc).symm

/-- Stripping a body wrapped in single newlines gives the body back when
the body itself is trimmed. -/
theorem pyStrip_newline_wrap (body : List Char)
    (hhead : ∀ c, body.head? = some c → isPySpace c = false)
    (hlast : ∀ c, body.getLast? = some c → isPySpace c = false) :
    pyStrip ('\n' :: (body ++ ['\n'])) = body := by
  unfold pyStrip
  rw [show ('\n' :: (body ++ ['\n'])).dropWhile isPySpace
      = (body ++ ['\n']).dropWhile isPySpace by simp [List.dropWhile_cons, isPySpace]]
  cases body with
  | nil => decide
  | cons a l =>
    have ha : isPySpace a = false := hhead a rfl
    rw [show ((a :: l) ++ ['\n']) = a :: (l ++ ['\n']) from rfl]
    rw [List.dropWhile_cons]
    simp only [ha, Bool.false_eq_true, if_false]
    rw [show (a :: (l ++ ['\n'])).reverse = '\n' :: (a :: l).reverse by simp]
    rw [List.dropWhile_cons]
    simp only [show isPySpace '\n' = true from rfl, if_true]
    rw [dropWhile_eq_self_of_head _ _
      (fun c hc => hlast c (by rwa [List.head?_reverse] at hc))]
    exact List.reverse_reverse _

/-- The shared tail of the fenced-reply computations: after the leading
fence is gone the text reads newline, body, newline, closing fence; the
trailing-fence drop and the final strip recover the body. -/
theorem strip_trailing_newline_fence (body : List Char)
    (hhead : ∀ c, body.head? = some c → isPySpace c = false)
    (hlast : ∀ c, body.getLast? = some c → isPySpace c = false) :
    pyStrip (dropTrailingFence ('\n' :: (body ++ ['\n', '`', '`', '`']))) = body := by
  have hend : endsWith "```".data ('\n' :: (body ++ ['\n', '`', '`', '`'])) = true := by
    unfold endsWith
    rw [show ('\n' :: (body ++ ['\n', '`', '`', '`'])).reverse
        = '`' :: '`' :: '`' :: '\n' :: (body.reverse ++ ['\n']) by simp]
    rfl
  unfold dropTrailingFence
  rw [if_pos hend]
  rw [show '\n' :: (body ++ ['\n', '`', '`', '`'])
      = ('\n' :: (body ++ ['\n'])) ++ ['`', '`', '`'] by simp]
  rw [show (('\n' :: (body ++ ['\n'])) ++ ['`', '`', '`']).length - 3
      = ('\n' :: (body ++ ['\n'])).length by simp]
  rw [List.take_left]
  exact pyStrip_newline_wrap body hhead hlast

/-! ### Claim theorems -/

/-- C10: a request body that parses to a falsy JSON value - the empty
object and null among them - draws HTTP 400 with the message "Invalid
request: No JSON data received." whatever the model reply would have
been: neither field validation nor the model call is reached, so an
empty-object profile is rejected as an absent body rather than with
per-field errors (the body is the message form, not the errors form). -/
theorem c10_falsy_body_rejected (v : PyVal) (h : pyTruthy v = false)
    (reply : ModelResult) :
    generate_diet v reply =
      ⟨400, .errorMessage "Invalid request: No JSON data received."⟩ := by
  unfold generate_diet
  rw [h]
  simp

/-- C10 witness: the empty object and null are both rejected this way,
here with two different model outcomes. -/
theorem c10_witness :
    generate_diet (.vdict []) .timedOut =
      ⟨400, .errorMessage "Invalid request: No JSON data received."⟩
    ∧ generate_diet .vnone (.text "\x7b\x7d".data) =
      ⟨400, .errorMessage "Invalid request: No JSON data received."⟩ :=
  ⟨c10_falsy_body_rejected (.vdict []) rfl .timedOut,
   c10_falsy_body_rejected .vnone rfl (.text "\x7b\x7d".data)⟩

/-- C5 counterexample: normalisation is not idempotent on the canonical
descriptions.  "non-veg" normalises to "non-vegetarian", but
"non-vegetarian" itself is outside the accepted enumeration (which has
"non-veg" and "non vegetarian" only), so a second application falls back
to "vegetarian" instead of returning it unchanged. -/
theorem c5_counterexample :
    normalize_diet_type "non-veg" = "non-vegetarian"
    ∧ normalize_diet_type "non-vegetarian" = "vegetarian"
    ∧ normalize_diet_type (normalize_diet_type "non-veg")
      ≠ normalize_diet_type "non-veg" := by
  refine ⟨rfl, rfl, ?_⟩
  decide

/-- C5 amended: normalisation is case-insensitive on the accepted
enumeration - "VEG", "veg" and "Vegetarian" give "vegetarian", the
non-veg spellings give "non-vegetarian" - and every string whose
lowercasing is outside the enumeration falls back to "vegetarian".
Normalisation is idempotent on "vegetarian" but not on
"non-vegetarian", which the fallback sends to "vegetarian". -/
theorem c5_amended_normalization :
    (normalize_diet_type "VEG" = "vegetarian"
      ∧ normalize_diet_type "veg" = "vegetarian"
      ∧ normalize_diet_type "Vegetarian" = "vegetarian")
    ∧ (normalize_diet_type "NON-VEG" = "non-vegetarian"
      ∧ normalize_diet_type "Non Vegetarian" = "non-vegetarian")
    ∧ (∀ s : String, pyLower s ∉ allowedDietTypes →
        normalize_diet_type s = "vegetarian")
    ∧ normalize_diet_type "vegetarian" = "vegetarian" := by
  refine ⟨by decide, by decide, ?_, by decide⟩
  intro s hs
  simp only [allowedDietTypes, List.mem_cons, List.not_mem_nil, or_false,
    not_or] at hs
  obtain ⟨h1, h2, h3, h4⟩ := hs
  simp only [normalize_diet_type]
  simp [h1, h2, h3, h4]

/-- C5 amended witness: an unexpected diet type at a concrete input. -/
theorem c5_witness : normalize_diet_type "pescatarian" = "vegetarian" :=
  c5_amended_normalization.2.2.1 "pescatarian" (by decide)

/-- C4 (code-bug evidence): evaluated on a record with no age key,
validation.py's validator raises KeyError('age') at `int(data['age'])`
instead of returning the report - the `except` clause catches only
ValueError and TypeError, and the "Missing required field" message
recorded moments earlier is lost.  On a present non-numeric age it does
return the report, as the claim says; the inline app.py validator
likewise raises AttributeError on a present non-string diet_type. -/
theorem c4_validator_raises_eval :
    validation_validate_diet_input [] = .error (.keyError "age")
    ∧ validation_validate_diet_input (vRecordWithAge (.vstr "abc"))
      = .ok ["Invalid numeric value for age"]
    ∧ app_validate_diet_input [("diet_type", .vint 5)]
      = .error (.attributeError "'int' object has no attribute 'lower'") :=
  ⟨rfl, rfl, rfl⟩

/-- C2: whenever the cleaned model reply fails to parse as JSON, the
endpoint (here on a fixed valid profile) answers HTTP 500 with status
"error" and a message that carries the parser's diagnostic verbatim.
The handler is a total function of the reply - no exception escapes -
and the response depends on the single parse of the cleaned text, with
no re-parse or retry. -/
theorem c2_parse_failure_500 (t : List Char) (e : String)
    (h : json_loads (clean_model_response t) = .error e) :
    generate_diet (.vdict validProfile) (.text t) =
      ⟨500, .errorMessage
        ("Failed to parse the diet plan structure received from the AI. Please try again. Error: "
          ++ e)⟩ := by
  have hv : app_validate_diet_input validProfile = .ok [] := rfl
  have hd : diet_type_description validProfile = .ok "vegetarian" := rfl
  have hp : pyTruthy (.vdict validProfile) = true := rfl
  unfold generate_diet
  simp only [hp, hv, hd, Bool.not_true, Bool.false_eq_true, if_false,
    List.isEmpty_nil, Bool.not_false, if_true]
  simp only [process_model_text, h]

/-- C2 witness: the spec's example of malformed output, a brace followed
by "not json". -/
theorem c2_witness :
    generate_diet (.vdict validProfile) (.text "\x7bnot json".data) =
      ⟨500, .errorMessage
        ("Failed to parse the diet plan structure received from the AI. Please try again. Error: "
          ++ "Expecting property name enclosed in double quotes")⟩ :=
  c2_parse_failure_500 "\x7bnot json".data
    "Expecting property name enclosed in double quotes" rfl

/-- C6 counterexample: 120.9 lies outside [10, 120], yet validation.py
records no age error for it - `int(data['age'])` truncates the float to
120 before the range test, so the full record comes back clean. -/
theorem c6_counterexample :
    ¬ ((10 : Rat) ≤ mkRat 1209 10 ∧ mkRat 1209 10 ≤ 120)
    ∧ validation_validate_diet_input (vRecordWithAge (.vfloat (mkRat 1209 10)))
      = .ok [] := by
  exact ⟨by decide, rfl⟩

/-- C6 amended, for integer age values (int() truncates a float before
the range test, so a non-integer value such as 120.9 escapes the rule):
on an otherwise-valid record, validation.py records the age error
exactly when the integer lies outside [10, 120], and the lenient inline
app.py validator records its age error exactly when the integer is
non-positive. -/
theorem c6_amended_age_rule (n : Int) :
    validation_validate_diet_input (vRecordWithAge (.vint n)) =
      .ok (if 10 ≤ n ∧ n ≤ 120 then [] else ["Age must be between 10 and 120"])
    ∧ app_validate_diet_input (appRecordWithAge (.vint n)) =
      .ok (if n < 1 then [("age", "Age must be a positive number.")] else []) := by
  refine ⟨rfl, ?_⟩
  by_cases h1 : n < 1
  · rw [if_pos h1]
    by_cases h0 : n = 0
    · subst h0
      rfl
    · have ht : (n != 0) = true := by simpa using h0
      have ha : decide (n < 1) = true := decide_eq_true h1
      simp [app_validate_diet_input, appRecordWithAge, appFieldChecksErrors,
        appAfterWeight, appAfterHeight, appAfterAge, appRequiredErrors,
        appRequiredFields, appRequiredStep, appAgeBad, appNumBad, getVal,
        setErr, pyTruthy, isInstInt, isInstNum, isInstList, pyLower,
        allowedDietTypes, pyCapitalize, ht, ha]
  · rw [if_neg h1]
    have h0 : n ≠ 0 := by omega
    have ht : (n != 0) = true := by simpa using h0
    have ha : decide (n < 1) = false := decide_eq_false h1
    simp [app_validate_diet_input, appRecordWithAge, appFieldChecksErrors,
      appAfterWeight, appAfterHeight, appAfterAge, appRequiredErrors,
      appRequiredFields, appRequiredStep, appAgeBad, appNumBad, getVal,
      setErr, pyTruthy, isInstInt, isInstNum, isInstList, pyLower,
      allowedDietTypes, pyCapitalize, ht, ha]

/-- C3 counterexample: the cleanup does not strip exactly one leading
fence marker.  On a reply that begins with "```json" immediately followed
by "```", the code's second `if` fires on the already shortened text and
removes a second marker, where the spec-described single-marker strip
leaves the bare "```" in place; the two disagree. -/
theorem c3_counterexample :
    clean_model_response "```json```\x7b\"a\":1\x7d".data = "\x7b\"a\":1\x7d".data
    ∧ strip_one_fence_pair "```json```\x7b\"a\":1\x7d".data = "```\x7b\"a\":1\x7d".data
    ∧ clean_model_response "```json```\x7b\"a\":1\x7d".data
      ≠ strip_one_fence_pair "```json```\x7b\"a\":1\x7d".data := by
  refine ⟨rfl, rfl, ?_⟩
  intro h
  rw [show clean_model_response "```json```\x7b\"a\":1\x7d".data
      = "\x7b\"a\":1\x7d".data from rfl] at h
  rw [show strip_one_fence_pair "```json```\x7b\"a\":1\x7d".data
      = "```\x7b\"a\":1\x7d".data from rfl] at h
  exact absurd h (by decide)

/-- C3 amended: for a trimmed reply body that neither begins nor ends
with whitespace or a backtick, cleanup strips one leading fence marker -
with a language tag ("```json") or without ("```") - and one trailing
marker plus surrounding whitespace, and a reply with no fences passes
through unchanged; hence parsing the fenced reply yields the same
structured document as parsing the bare body.  (A reply beginning
"```json```" is the exception the counterexample records: both leading
markers are stripped.) -/
theorem c3_amended_fence_stripping (body : List Char)
    (hhead : ∀ c, body.head? = some c → isPySpace c = false ∧ c ≠ '`')
    (hlast : ∀ c, body.getLast? = some c → isPySpace c = false ∧ c ≠ '`') :
    clean_model_response ("```json\n".data ++ body ++ "\n```".data) = body
    ∧ clean_model_response ("```\n".data ++ body ++ "\n```".data) = body
    ∧ clean_model_response body = body
    ∧ json_loads (clean_model_response ("```json\n".data ++ body ++ "\n```".data))
      = json_loads body := by
  have hheadW : ∀ c, body.head? = some c → isPySpace c = false :=
    fun c hc => (hhead c hc).1
  have hlastW : ∀ c, body.getLast? = some c → isPySpace c = false :=
    fun c hc => (hlast c hc).1
  have e1 : clean_model_response ("```json\n".data ++ body ++ "\n```".data) = body := by
    rw [show "```json\n".data ++ body ++ "\n```".data
        = '`' :: '`' :: '`' :: 'j' :: 's' :: 'o' :: 'n' :: '\n' :: (body ++ ['\n','`','`','`']) from rfl]
    unfold clean_model_response
    rw [pyStrip_eq_self ('`' :: '`' :: '`' :: 'j' :: 's' :: 'o' :: 'n' :: '\n' :: (body ++ ['\n','`','`','`']))
      (fun c hc => by rw [head_eq_of_head? hc]; decide)
      (fun c hc => by
        rw [show ('`' :: '`' :: '`' :: 'j' :: 's' :: 'o' :: 'n' :: '\n' :: (body ++ ['\n','`','`','`']))
            = ('`' :: '`' :: '`' :: 'j' :: 's' :: 'o' :: 'n' :: '\n' :: (body ++ ['\n','`','`'])) ++ ['`']
          by simp] at hc
        rw [last_eq_of_concat hc]
        decide)]
    unfold dropJsonFence
    rw [if_pos (show startsWith "```json".data
      ('`' :: '`' :: '`' :: 'j' :: 's' :: 'o' :: 'n' :: '\n' :: (body ++ ['\n','`','`','`'])) = true from rfl)]
    rw [show ('`' :: '`' :: '`' :: 'j' :: 's' :: 'o' :: 'n' :: '\n' :: (body ++ ['\n','`','`','`'])).drop 7
        = '\n' :: (body ++ ['\n','`','`','`']) from rfl]
    have hf : startsWith "```".data ('\n' :: (body ++ ['\n','`','`','`'])) = false := rfl
    unfold dropSecondFence
    rw [if_neg (by simp [hf])]
    exact strip_trailing_newline_fence body hheadW hlastW
  have e2 : clean_model_response ("```\n".data ++ body ++ "\n```".data) = body := by
    rw [show "```\n".data ++ body ++ "\n```".data
        = '`' :: '`' :: '`' :: '\n' :: (body ++ ['\n','`','`','`']) from rfl]
    unfold clean_model_response
    rw [pyStrip_eq_self ('`' :: '`' :: '`' :: '\n' :: (body ++ ['\n','`','`','`']))
      (fun c hc => by rw [head_eq_of_head? hc]; decide)
      (fun c hc => by
        rw [show ('`' :: '`' :: '`' :: '\n' :: (body ++ ['\n','`','`','`']))
            = ('`' :: '`' :: '`' :: '\n' :: (body ++ ['\n','`','`'])) ++ ['`'] by simp] at hc
        rw [last_eq_of_concat hc]
        decide)]
    have hf1 : startsWith "```json".data
        ('`' :: '`' :: '`' :: '\n' :: (body ++ ['\n','`','`','`'])) = false := rfl
    unfold dropJsonFence
    rw [if_neg (by simp [hf1])]
    unfold dropSecondFence
    rw [if_pos (show startsWith "```".data
      ('`' :: '`' :: '`' :: '\n' :: (body ++ ['\n','`','`','`'])) = true from rfl)]
    rw [show ('`' :: '`' :: '`' :: '\n' :: (body ++ ['\n','`','`','`'])).drop 3
        = '\n' :: (body ++ ['\n','`','`','`']) from rfl]
    exact strip_trailing_newline_fence body hheadW hlastW
  have e3 : clean_model_response body = body := by
    unfold clean_model_response
    rw [pyStrip_eq_self body hheadW hlastW]
    have hb : ∀ c, body.head? = some c → (('`' : Char) == c) = false := fun c hc =>
      beq_eq_false_iff_ne.mpr (fun he => (hhead c hc).2 he.symm)
    have hf1 : startsWith "```json".data body = false :=
      startsWith_false_of_head '`' ("``json".data) body hb
    have hf2 : startsWith "```".data body = false :=
      startsWith_false_of_head '`' ("``".data) body hb
    have hf3 : endsWith "```".data body = false := by
      unfold endsWith
      exact startsWith_false_of_head '`' ['`', '`'] body.reverse
        (fun c hc => by
          rw [List.head?_reverse] at hc
          exact beq_eq_false_iff_ne.mpr (fun he => (hlast c hc).2 he.symm))
    unfold dropJsonFence
    rw [if_neg (by simp [hf1])]
    unfold dropSecondFence
    rw [if_neg (by simp [hf2])]
    unfold dropTrailingFence
    rw [if_neg (by simp [hf3])]
    exact pyStrip_eq_self body hheadW hlastW
  exact ⟨e1, e2, e3, by rw [e1]⟩

/-- C3 witness: the spec's own example.  Cleaning the fenced reply gives
the bare object text, parsing both gives the same document, and the
parse succeeds. -/
theorem c3_witness :
    clean_model_response "```json\n\x7b\"a\":1\x7d\n```".data = "\x7b\"a\":1\x7d".data
    ∧ json_loads (clean_model_response "```json\n\x7b\"a\":1\x7d\n```".data)
      = json_loads "\x7b\"a\":1\x7d".data
    ∧ (json_loads "\x7b\"a\":1\x7d".data).isOk = true := by
  have h := c3_amended_fence_stripping "\x7b\"a\":1\x7d".data
    (by intro c hc; simp at hc; subst hc; decide)
    (by intro c hc; simp at hc; subst hc; decide)
  exact ⟨h.1, h.2.2.2, rfl⟩

/-- C9: whenever the inline validator of app.py returns an empty error
report, the body carries a truthy string diet_type whose lowercasing
lies in the accepted enumeration, and it satisfies one of the two
explicit branches of the normalisation - so the fallback branch that
defaults an unexpected diet_type to "vegetarian" is unreachable after
successful validation. -/
theorem c9_validated_diet_type (data : List (String × PyVal))
    (h : app_validate_diet_input data = .ok []) :
    ∃ s, getVal data "diet_type" = some (.vstr s) ∧ s ≠ ""
      ∧ ((pyLower s = "veg" ∨ pyLower s = "vegetarian")
        ∨ (pyLower s = "non-veg" ∨ pyLower s = "non vegetarian"))
      ∧ (normalize_diet_type s = "vegetarian"
        ∨ normalize_diet_type s = "non-vegetarian") := by
  cases hget : getVal data "diet_type" with
  | none =>
    simp only [app_validate_diet_input, hget, Except.ok.injEq] at h
    have hreq := appFieldChecksErrors_eq_nil data h
    have hall := (foldl_requiredStep_eq_nil data appRequiredFields [] hreq).2
    rcases hall "diet_type" (by simp [appRequiredFields]) with ⟨v, hv, _⟩
    rw [hget] at hv
    exact Option.noConfusion hv
  | some v =>
    cases v with
    | vstr s =>
      simp only [app_validate_diet_input, hget] at h
      split at h
      · rename_i hmem
        simp only [Except.ok.injEq] at h
        have hreq := appFieldChecksErrors_eq_nil data h
        have hall := (foldl_requiredStep_eq_nil data appRequiredFields [] hreq).2
        rcases hall "diet_type" (by simp [appRequiredFields]) with ⟨v2, hv2, htr⟩
        rw [hget] at hv2
        have hv3 : PyVal.vstr s = v2 := Option.some.inj hv2
        subst hv3
        simp only [allowedDietTypes, List.mem_cons, List.not_mem_nil, or_false] at hmem
        refine ⟨s, rfl, ?_, ?_, ?_⟩
        · simpa [pyTruthy] using htr
        · tauto
        · rcases hmem with hm | hm | hm | hm <;>
            simp only [normalize_diet_type, hm] <;> decide
      · rename_i hmem
        simp only [Except.ok.injEq] at h
        exact absurd h (setErr_ne_nil _ _ _)
    | vnone => simp [app_validate_diet_input, hget] at h
    | vbool b => simp [app_validate_diet_input, hget] at h
    | vint n => simp [app_validate_diet_input, hget] at h
    | vfloat q => simp [app_validate_diet_input, hget] at h
    | vlist xs => simp [app_validate_diet_input, hget] at h
    | vdict kvs => simp [app_validate_diet_input, hget] at h

/-- C9 witness: the valid example profile. -/
theorem c9_witness :
    ∃ s, getVal validProfile "diet_type" = some (.vstr s) ∧ s ≠ ""
      ∧ ((pyLower s = "veg" ∨ pyLower s = "vegetarian")
        ∨ (pyLower s = "non-veg" ∨ pyLower s = "non vegetarian"))
      ∧ (normalize_diet_type s = "vegetarian"
        ∨ normalize_diet_type s = "non-vegetarian") :=
  c9_validated_diet_type validProfile rfl

/-- C1 counterexample: two profiles missing required fields that do not
draw the 400-with-errors response.  A profile whose only entry is a
non-string diet_type (age and five more required fields missing) makes
the inline validator raise AttributeError at `.lower()`, and the
endpoint answers 500; the empty object, which misses every required
field, is caught by the falsy-body guard and answered 400 with the
no-JSON-data message rather than with per-field errors. -/
theorem c1_counterexample :
    getVal [("diet_type", PyVal.vint 5)] "age" = none
    ∧ (generate_diet (.vdict [("diet_type", .vint 5)]) (.text [])).status = 500
    ∧ generate_diet (.vdict []) (.text [])
      = ⟨400, .errorMessage "Invalid request: No JSON data received."⟩ :=
  ⟨rfl, rfl, rfl⟩

/-- C1 amended: for every non-empty profile dict missing a required
field of the inline validator, provided diet_type (when present) is a
string - so the validator itself returns instead of raising - the
validator returns a non-empty report with an entry named after that
field, and the endpoint answers 400 with the status-error errors body,
never reaching prompt building or the model (the response is the same
whatever the model reply). -/
theorem c1_amended_missing_field_400 (data : List (String × PyVal))
    (reply : ModelResult) (f : String)
    (hf : f ∈ appRequiredFields) (hmiss : getVal data f = none)
    (hne : data ≠ [])
    (hdt : ∀ v, getVal data "diet_type" = some v → isInstStr v = true) :
    ∃ errs, app_validate_diet_input data = .ok errs
      ∧ (∃ m, (f, m) ∈ errs) ∧ errs ≠ []
      ∧ generate_diet (.vdict data) reply = ⟨400, .errorFields errs⟩ := by
  have hkey : ∃ m, (f, m) ∈ appFieldChecksErrors data :=
    exists_mem_appFieldChecksErrors data f
      (appRequiredErrors_key_of_missing data f hf hmiss)
  have hok : ∃ errs, app_validate_diet_input data = .ok errs
      ∧ (∃ m, (f, m) ∈ errs) := by
    cases hget : getVal data "diet_type" with
    | none =>
      exact ⟨appFieldChecksErrors data, by simp [app_validate_diet_input, hget], hkey⟩
    | some v =>
      have hstr := hdt v hget
      cases v with
      | vstr s =>
        by_cases hmem : pyLower s ∈ allowedDietTypes
        · exact ⟨appFieldChecksErrors data,
            by simp [app_validate_diet_input, hget, hmem], hkey⟩
        · exact ⟨setErr (appFieldChecksErrors data) "diet_type"
              "Invalid diet type specified.",
            by simp [app_validate_diet_input, hget, hmem],
            exists_mem_setErr _ f _ _ hkey⟩
      | vnone => simp [isInstStr] at hstr
      | vbool b => simp [isInstStr] at hstr
      | vint n => simp [isInstStr] at hstr
      | vfloat q => simp [isInstStr] at hstr
      | vlist xs => simp [isInstStr] at hstr
      | vdict kvs => simp [isInstStr] at hstr
  rcases hok with ⟨errs, hv, hm⟩
  have herrs : errs ≠ [] := by
    rcases hm with ⟨m, hmem⟩
    exact List.ne_nil_of_mem hmem
  exact ⟨errs, hv, hm, herrs, generate_diet_400 data errs reply hv hne herrs⟩

/-- C1 witness: a one-field profile missing age (and everything else but
sex) draws the 400 errors body naming age. -/
theorem c1_witness :
    ∃ errs, app_validate_diet_input [("sex", PyVal.vstr "M")] = .ok errs
      ∧ (∃ m, ("age", m) ∈ errs) ∧ errs ≠ []
      ∧ generate_diet (.vdict [("sex", .vstr "M")]) (.text [])
        = ⟨400, .errorFields errs⟩ := by
  exact c1_amended_missing_field_400 [("sex", .vstr "M")] (.text []) "age"
    (by simp [appRequiredFields]) rfl (by simp)
    (by
      intro v hv
      rw [show getVal [("sex", PyVal.vstr "M")] "diet_type" = none from rfl] at hv
      exact Option.noConfusion hv)

/-- C8 counterexample: on a record whose only flaw is the absent age
key, the inline validator's whole report is the single pair
("age", "Age must be a positive number.") - the required-field message
is overwritten, so no missing-field-form error ("Age is required." /
"Missing required field: age") distinct from the invalid-value error
remains - and validation.py raises KeyError('age') instead of returning
any report at all. -/
theorem c8_counterexample :
    app_validate_diet_input vRecordNoAge
      = .ok [("age", "Age must be a positive number.")]
    ∧ validation_validate_diet_input vRecordNoAge = .error (.keyError "age") :=
  ⟨rfl, rfl⟩

/-- C8 amended: for every profile with age absent (and diet_type, when
present, a string), the inline validator's report carries the age entry
"Age must be a positive number." - the positivity check overwrites the
required-field message, so absence is not signalled distinctly from an
invalid value - while validation.py raises KeyError('age') before it
can return its report. -/
theorem c8_amended_missing_age (data : List (String × PyVal))
    (hmiss : getVal data "age" = none)
    (hdt : ∀ v, getVal data "diet_type" = some v → isInstStr v = true) :
    (∃ errs, app_validate_diet_input data = .ok errs
      ∧ ("age", "Age must be a positive number.") ∈ errs)
    ∧ validation_validate_diet_input data = .error (.keyError "age") := by
  constructor
  · have hbad : appAgeBad data = true := by simp [appAgeBad, hmiss]
    have hp1 : ("age", "Age must be a positive number.") ∈ appAfterAge data := by
      simp only [appAfterAge, hbad, if_true]
      exact setErr_mem_self _ _ _
    have hp2 : ("age", "Age must be a positive number.") ∈ appAfterHeight data :=
      mem_ite_setErr_of_ne _ _ _ _ _ _ (by decide) hp1
    have hp3 : ("age", "Age must be a positive number.") ∈ appAfterWeight data :=
      mem_ite_setErr_of_ne _ _ _ _ _ _ (by decide) hp2
    have hp4 : ("age", "Age must be a positive number.") ∈ appFieldChecksErrors data := by
      cases hget : getVal data "health_conditions" with
      | none => simp only [appFieldChecksErrors, hget]; exact hp3
      | some v =>
        simp only [appFieldChecksErrors, hget]
        split
        · exact mem_setErr_of_ne _ _ _ _ _ (by decide) hp3
        · exact hp3
    cases hget : getVal data "diet_type" with
    | none =>
      exact ⟨appFieldChecksErrors data, by simp [app_validate_diet_input, hget], hp4⟩
    | some v =>
      have hstr := hdt v hget
      cases v with
      | vstr s =>
        by_cases hmem : pyLower s ∈ allowedDietTypes
        · exact ⟨appFieldChecksErrors data,
            by simp [app_validate_diet_input, hget, hmem], hp4⟩
        · exact ⟨setErr (appFieldChecksErrors data) "diet_type"
              "Invalid diet type specified.",
            by simp [app_validate_diet_input, hget, hmem],
            mem_setErr_of_ne _ _ _ _ _ (by decide) hp4⟩
      | vnone => simp [isInstStr] at hstr
      | vbool b => simp [isInstStr] at hstr
      | vint n => simp [isInstStr] at hstr
      | vfloat q => simp [isInstStr] at hstr
      | vlist xs => simp [isInstStr] at hstr
      | vdict kvs => simp [isInstStr] at hstr
  · simp only [validation_validate_diet_input, hmiss]
    rfl

/-- C8 witness: the no-age record. -/
theorem c8_witness :
    (∃ errs, app_validate_diet_input vRecordNoAge = .ok errs
      ∧ ("age", "Age must be a positive number.") ∈ errs)
    ∧ validation_validate_diet_input vRecordNoAge = .error (.keyError "age") := by
  exact c8_amended_missing_age vRecordNoAge rfl
    (by
      intro v hv
      rw [show getVal vRecordNoAge "diet_type" = some (.vstr "veg") from rfl] at hv
      cases hv
      rfl)

/-- C7 counterexample: the prompt's health-conditions clause is not the
plain comma-separated join of the entries.  For the single entry " a "
the code strips it to "a", while the join of the entries is " a ". -/
theorem c7_counterexample :
    health_conditions_str [("health_conditions", .vlist [.vstr " a "])] = "a"
    ∧ String.intercalate ", " [" a "] = " a "
    ∧ ("a" : String) ≠ " a " :=
  ⟨rfl, rfl, by decide⟩

/-- C7 amended: for entries that are non-empty strings already free of
surrounding whitespace, the health-conditions clause is their
comma-separated join, and an absent or empty list renders literally as
"None" (entries are stripped and empties dropped before joining, which
is invisible on such entries); the clause sits in the built prompt as
the line "- Health Conditions: ...".  The stray
src/tempCodeRunnerFile.py fragment joins the raw entries, matching the
claim's plain-join reading. -/
theorem c7_amended_health_conditions (xs : List String)
    (kvs : List (String × PyVal))
    (hstrip : ∀ s ∈ xs, pyStripStr s = s ∧ s ≠ "") :
    (getVal kvs "health_conditions" = some (.vlist (xs.map PyVal.vstr)) →
      health_conditions_str kvs
        = (if xs = [] then "None" else String.intercalate ", " xs)
      ∧ tempfile_health_conditions_str kvs
        = (if xs = [] then "None" else String.intercalate ", " xs))
    ∧ (getVal kvs "health_conditions" = none → health_conditions_str kvs = "None")
    ∧ (∀ dietType, build_prompt kvs dietType
        = prompt_header kvs ++ health_conditions_clause kvs
          ++ prompt_after_conditions dietType
      ∧ health_conditions_clause kvs
        = "- Health Conditions: " ++ health_conditions_str kvs ++ "\n") := by
  refine ⟨?_, ?_, fun dt => ⟨rfl, rfl⟩⟩
  · intro hget
    cases xs with
    | nil =>
      constructor
      · simp [health_conditions_str, hget, pyTruthy]
      · simp [tempfile_health_conditions_str, hget, pyTruthy]
    | cons a as =>
      have hmapstrip : (((a :: as).map PyVal.vstr).map
          (fun cond => pyStripStr (pyStrOf cond))) = a :: as := by
        rw [List.map_map]
        rw [show ((fun cond => pyStripStr (pyStrOf cond)) ∘ PyVal.vstr)
            = fun s => pyStripStr s from rfl]
        rw [List.map_congr_left (fun s hs => (hstrip s hs).1)]
        exact List.map_id _
      have hfilter : (a :: as).filter (fun s => decide (s ≠ "")) = a :: as :=
        List.filter_eq_self.mpr (fun s hs => decide_eq_true (hstrip s hs).2)
      have hmapid : ((a :: as).map PyVal.vstr).map
          (fun cond => match cond with | .vstr s => s | v => pyStrOf v) = a :: as := by
        rw [List.map_map]
        rw [show ((fun cond => match cond with | PyVal.vstr s => s | v => pyStrOf v)
            ∘ PyVal.vstr) = fun s => s from rfl]
        exact List.map_id _
      constructor
      · simp only [health_conditions_str, hget]
        rw [show pyTruthy (.vlist ((a :: as).map PyVal.vstr)) = true from rfl]
        simp only [if_true, hmapstrip, hfilter]
        simp
      · simp only [tempfile_health_conditions_str, hget]
        rw [show pyTruthy (.vlist ((a :: as).map PyVal.vstr)) = true from rfl]
        simp only [if_true, hmapid]
        simp
  · intro hget
    simp [health_conditions_str, hget]

/-- C7 witness: the spec's end-to-end scenario with empty
health_conditions renders "None", and two real conditions join with a
comma. -/
theorem c7_witness :
    health_conditions_str validProfile = "None"
    ∧ health_conditions_str
        [("health_conditions", .vlist [.vstr "diabetes", .vstr "hypertension"])]
      = "diabetes, hypertension" := by
  have h1 := c7_amended_health_conditions [] validProfile (by simp)
  have h2 := c7_amended_health_conditions ["diabetes", "hypertension"]
    [("health_conditions", .vlist [.vstr "diabetes", .vstr "hypertension"])]
    (by decide)
  exact ⟨(h1.1 rfl).1.trans (by decide), (h2.1 rfl).1.trans (by decide)⟩

end SmartPlate
